import Mathlib

/-!
Shallow embedding of the design-evaluation and staged-optimization pipeline
of `Optimizer.py` (class `Optimizer`): the parameter mapper, the flight
evaluator `calculate_loss`, the loss composer, the Stage-2 bounds fence
`bounded_objective`, the best-apogee tracker shared by the two stages, and
the save step of `verify_and_save`.

Floating-point values that the code may see as NaN or infinite (the
stability-margin series, which is the only series the code NaN-filters)
are modelled by an extended rational type `FloatVal` with IEEE-style
arithmetic on the special values; finite float arithmetic is modelled by
exact rationals.  Fallible Python code is modelled with `Except`: an
`Except.error` value marks an exception that propagates out of the
function, while caught exceptions are translated to the sentinel returns
the `except` blocks perform.
-/

namespace VulcanCAD

/-- An IEEE-style scalar: a finite value (modelled exactly by a rational),
positive infinity, negative infinity, or NaN. -/
inductive FloatVal where
  | fin (q : ℚ)
  | inf
  | ninf
  | nan
deriving DecidableEq, Repr

/-- `np.isnan` on one scalar. -/
def FloatVal.isnan : FloatVal → Bool
  | .nan => true
  | _ => false

/-- IEEE negation. -/
def FloatVal.neg : FloatVal → FloatVal
  | .fin q => .fin (-q)
  | .inf => .ninf
  | .ninf => .inf
  | .nan => .nan

/-- IEEE addition (no finite-overflow modelling: finite floats are exact
rationals here). -/
def FloatVal.add : FloatVal → FloatVal → FloatVal
  | .nan, _ => .nan
  | _, .nan => .nan
  | .inf, .ninf => .nan
  | .ninf, .inf => .nan
  | .inf, _ => .inf
  | _, .inf => .inf
  | .ninf, _ => .ninf
  | _, .ninf => .ninf
  | .fin a, .fin b => .fin (a + b)

/-- IEEE subtraction, `a - b = a + (-b)`. -/
def FloatVal.sub (a b : FloatVal) : FloatVal := a.add b.neg

/-- IEEE multiplication. -/
def FloatVal.mul : FloatVal → FloatVal → FloatVal
  | .nan, _ => .nan
  | _, .nan => .nan
  | .fin a, .fin b => .fin (a * b)
  | .inf, .inf => .inf
  | .inf, .ninf => .ninf
  | .ninf, .inf => .ninf
  | .ninf, .ninf => .inf
  | .inf, .fin b => if 0 < b then .inf else if b < 0 then .ninf else .nan
  | .fin a, .inf => if 0 < a then .inf else if a < 0 then .ninf else .nan
  | .ninf, .fin b => if 0 < b then .ninf else if b < 0 then .inf else .nan
  | .fin a, .ninf => if 0 < a then .ninf else if a < 0 then .inf else .nan

/-- `x ** 2` on a float scalar. -/
def FloatVal.sq (a : FloatVal) : FloatVal := a.mul a

/-- IEEE `<`: false whenever either side is NaN. -/
def FloatVal.lt : FloatVal → FloatVal → Bool
  | .nan, _ => false
  | _, .nan => false
  | .ninf, .ninf => false
  | .ninf, _ => true
  | _, .ninf => false
  | .inf, _ => false
  | .fin _, .inf => true
  | .fin a, .fin b => decide (a < b)

/-- IEEE `≤`: false whenever either side is NaN. -/
def FloatVal.le : FloatVal → FloatVal → Bool
  | .nan, _ => false
  | _, .nan => false
  | .ninf, _ => true
  | _, .ninf => false
  | _, .inf => true
  | .inf, _ => false
  | .fin a, .fin b => decide (a ≤ b)

/-- Division of a float scalar by a sample count, as in `np.mean`
(`sum / len`); a count of zero gives `0/0 = NaN`. -/
def FloatVal.divNat : FloatVal → ℕ → FloatVal
  | _, 0 => .nan
  | .fin q, n => .fin (q / (n : ℚ))
  | .inf, _ => .inf
  | .ninf, _ => .ninf
  | .nan, _ => .nan

/-- IEEE pairwise minimum as `np.min` reduces with (NaN propagates). -/
def FloatVal.minPair : FloatVal → FloatVal → FloatVal
  | .nan, _ => .nan
  | _, .nan => .nan
  | .ninf, _ => .ninf
  | _, .ninf => .ninf
  | .inf, b => b
  | a, .inf => a
  | .fin a, .fin b => .fin (min a b)

/-- Float sum of a list, as `np.sum` (accumulating from `0.0`). -/
def sumF (l : List FloatVal) : FloatVal := l.foldl FloatVal.add (.fin 0)

/-- `np.mean`: sum divided by length. -/
def meanF (l : List FloatVal) : FloatVal := (sumF l).divNat l.length

/-- `np.min`: the minimum-reduction of a nonempty list (the empty case is
never reached by the evaluator, which guards on emptiness first). -/
def minF : List FloatVal → FloatVal
  | [] => .nan
  | h :: t => t.foldl FloatVal.minPair h

/-! ## The design vector and the parameter mapper (`calculate_loss`, lines 69-106) -/

/-- The 9-component design vector, in the order fixed by `self.space` and the
unpacking `top_tube_length, ..., vary_position = x` (lines 38-48 and 70-71). -/
structure DesignVector where
  top_tube_length : ℚ
  bottom_tube_length : ℚ
  fin_height : ℚ
  root_chord : ℚ
  tip_chord : ℚ
  fin_sweep : ℚ
  fin_bottom_offset : ℚ
  vary_mass : ℚ
  vary_position : ℚ
deriving DecidableEq, Repr

/-- Behaviour of a body-tube component handle: whether `setLength` throws
for the value being written this call. -/
structure TubeBeh where
  setLengthThrows : Bool
deriving DecidableEq, Repr

/-- Behaviour of the trapezoidal fin set handle: whether each setter throws,
and the length its parent reports via `getParent().getLength()` at the time
of the call (`none` models a fin set with no parent, line 92). -/
structure FinsBeh where
  setHeightThrows : Bool
  setRootChordThrows : Bool
  setTipChordThrows : Bool
  setSweepThrows : Bool
  setAxialThrows : Bool
  parentLen : Option ℚ
deriving DecidableEq, Repr

/-- Behaviour of the `Var Mass` component handle. -/
structure MassBeh where
  setOverriddenThrows : Bool
  setOverrideMassThrows : Bool
  setAxialThrows : Bool
deriving DecidableEq, Repr

/-- The component environment `get_component` exposes to one
`calculate_loss` call: `none` models a named component that is missing
from the registry (lines 75-76, 83, 98). -/
structure ComponentEnv where
  topTube : Option TubeBeh
  bottomTube : Option TubeBeh
  fins : Option FinsBeh
  varMass : Option MassBeh
deriving DecidableEq, Repr

/-- The physical fields the mapper has written into the component handles
(`none` = not written in this call). -/
structure AppliedState where
  topTubeLength : Option ℚ := none
  bottomTubeLength : Option ℚ := none
  finHeight : Option ℚ := none
  finRootChord : Option ℚ := none
  finTipChord : Option ℚ := none
  finSweep : Option ℚ := none
  finAxialOffset : Option ℚ := none
  massOverridden : Option Bool := none
  overrideMass : Option ℚ := none
  massAxialPosition : Option ℚ := none
deriving DecidableEq, Repr

/-- `if top_tube: top_tube.setLength(top_tube_length)` (lines 77-78): a
missing component is skipped, a throwing setter raises. -/
def applyTopTube (t? : Option TubeBeh) (x : DesignVector) (s : AppliedState) :
    Except Unit AppliedState :=
  match t? with
  | some t =>
    if t.setLengthThrows then Except.error ()
    else Except.ok { s with topTubeLength := some x.top_tube_length }
  | none => Except.ok s

/-- `if bottom_tube: bottom_tube.setLength(bottom_tube_length)`
(lines 79-80). -/
def applyBottomTube (t? : Option TubeBeh) (x : DesignVector) (s : AppliedState) :
    Except Unit AppliedState :=
  match t? with
  | some t =>
    if t.setLengthThrows then Except.error ()
    else Except.ok { s with bottomTubeLength := some x.bottom_tube_length }
  | none => Except.ok s

/-- The fin-set writes (lines 83-95): height, root chord, tip chord and
sweep in order, then, when the fin set has a parent, the axial offset
`parent_len - root_chord - fin_bottom_offset` (lines 91-95, unclamped). -/
def applyFins (f? : Option FinsBeh) (x : DesignVector) (s : AppliedState) :
    Except Unit AppliedState :=
  match f? with
  | some f =>
    if f.setHeightThrows then Except.error ()
    else
      let s := { s with finHeight := some x.fin_height }
      if f.setRootChordThrows then Except.error ()
      else
        let s := { s with finRootChord := some x.root_chord }
        if f.setTipChordThrows then Except.error ()
        else
          let s := { s with finTipChord := some x.tip_chord }
          if f.setSweepThrows then Except.error ()
          else
            let s := { s with finSweep := some x.fin_sweep }
            match f.parentLen with
            | some parent_len =>
              if f.setAxialThrows then Except.error ()
              else Except.ok { s with
                finAxialOffset :=
                  some (parent_len - x.root_chord - x.fin_bottom_offset) }
            | none => Except.ok s
  | none => Except.ok s

/-- The `Var Mass` writes (lines 98-102): the override flag is set before
the mass value, then the axial offset. -/
def applyVarMass (m? : Option MassBeh) (x : DesignVector) (s : AppliedState) :
    Except Unit AppliedState :=
  match m? with
  | some m =>
    if m.setOverriddenThrows then Except.error ()
    else
      let s := { s with massOverridden := some true }
      if m.setOverrideMassThrows then Except.error ()
      else
        let s := { s with overrideMass := some x.vary_mass }
        if m.setAxialThrows then Except.error ()
        else Except.ok { s with massAxialPosition := some x.vary_position }
  | none => Except.ok s

/-- The body of the mapper `try` block (lines 73-102): sequential component
writes, each of which may throw; a throw aborts the remaining writes
(`Except` short-circuit, mirroring Python exception propagation), and a
missing component is skipped. -/
def applyDesign (env : ComponentEnv) (x : DesignVector) : Except Unit AppliedState := do
  let s ← applyTopTube env.topTube x {}
  let s ← applyBottomTube env.bottomTube x s
  let s ← applyFins env.fins x s
  applyVarMass env.varMass x s

/-- The sentinel returned when applying the design throws
(`return 99999.0`, line 106). -/
def crashSentinel : ℚ := 99999.0

/-- The sentinel returned when the simulation fails or the apogee is below
the 100-unit minimal-flight threshold (`return 100000000.0`,
lines 121 and 128). -/
def lowApogeeSentinel : ℚ := 100000000.0

/-- The sentinel returned when the powered-ascent window holds no valid
stability sample (`return 100000000.0`, line 166). -/
def allNanStabilitySentinel : ℚ := 100000000.0

/-! ## The flight evaluator (`calculate_loss`, lines 108-185) -/

/-- One entry of the simulator's event log: whether its type is `BURNOUT`,
and its time. -/
structure FlightEvent where
  isBurnout : Bool
  time : ℚ
deriving DecidableEq, Repr

/-- The data one successful simulator run exposes: the time-aligned
altitude, velocity and stability series and the event log (lines 112-117,
132, 138).  Stability is the one series the code NaN-filters, so it is
the one modelled with `FloatVal`. -/
structure SimTrajectory where
  time : List ℚ
  alt : List ℚ
  vel : List ℚ
  stab : List FloatVal
  events : List FlightEvent
deriving DecidableEq, Repr

/-- Outcome of the black-box simulator call (lines 110-117): either an
exception inside the `try` block, or a trajectory. -/
inductive SimOutcome where
  | failure
  | success (d : SimTrajectory)
deriving DecidableEq, Repr

/-- `np.searchsorted(time_arr, t)` with the default `side='left'` on the
(non-decreasing) time series: the number of samples strictly before `t`. -/
def searchsortedLeft (l : List ℚ) (t : ℚ) : ℕ :=
  (l.takeWhile (fun a => decide (a < t))).length

/-- The launch-rail length used for the window, clamped upward to 2.44
(lines 134-137). -/
def clampRail (cfg : ℚ) : ℚ := if cfg < 2.44 then 2.44 else cfg

/-- `np.where(alt_arr >= rail_length)[0]` followed by `[0]`: the index of
the first sample satisfying the predicate, if any. -/
def firstAtOrAbove (railLen : ℚ) : List ℚ → Option ℕ
  | [] => none
  | a :: t =>
    if railLen ≤ a then some 0 else (firstAtOrAbove railLen t).map (· + 1)

/-- `start_index = rail_indices[0] if len(rail_indices) > 0 else 0`
(lines 153-155): index of the first altitude sample at or above the rail
length, or 0 when none reaches it. -/
def startIndexOf (alt : List ℚ) (railLen : ℚ) : ℕ :=
  (firstAtOrAbove railLen alt).getD 0

/-- `burnout_time`: time of the first `BURNOUT` event, else the final time
sample; `time_arr[-1]` on an empty series raises `IndexError`, which
propagates (lines 140-150 run outside any `try`). -/
def burnoutTimeOf (events : List FlightEvent) (time : List ℚ) : Except Unit ℚ :=
  match events.find? (fun e => e.isBurnout) with
  | some e => Except.ok e.time
  | none =>
    match time.getLast? with
    | some t => Except.ok t
    | none => Except.error ()

/-- The value bound to `boost_stability` (lines 157-160): a numpy slice
when the window is nonempty, and the Python list literal `[]` otherwise. -/
inductive StabWindow where
  | arr (l : List FloatVal)
  | pylist
deriving DecidableEq, Repr

/-- `boost_stability`: `stab_arr[start_index:end_index]` when
`end_index > start_index`, else the Python list `[]`. -/
def boostWindowOf (stab : List FloatVal) (s e : ℕ) : StabWindow :=
  if s < e then .arr ((stab.drop s).take (e - s)) else .pylist

/-- `rail_exit_vel = vel_arr[start_index] if start_index < len(vel_arr)
else 0.0` (line 162). -/
def railExitVelOf (vel : List ℚ) (s : ℕ) : ℚ := vel.getD s 0

/-- `boost_stability[~np.isnan(boost_stability)]` (line 163).  On a numpy
slice this is boolean-mask selection, keeping the non-NaN samples in
order; on the Python list `[]` from the empty-window branch, indexing a
list with a numpy boolean array raises `TypeError` (a size-zero ndarray
cannot be converted to a list index), which propagates uncaught. -/
def filterValidStab : StabWindow → Except Unit (List FloatVal)
  | .arr l => Except.ok (l.filter (fun v => !v.isnan))
  | .pylist => Except.error ()

/-- The base loss term `((abs(apogee - TARGET_ALTITUDE) / 20.0) ** 2) *
100000` (line 172). -/
def baseLossTerm (apogee target : ℚ) : ℚ := (|apogee - target| / 20) ^ 2 * 100000

/-- The instability penalty added when `min_stab < 1.6` (lines 174-175),
written over exact rationals for the finite case. -/
def minStabPenaltyTerm (minS : ℚ) : ℚ :=
  if minS < 1.6 then ((1.6 - minS) + 10000) ^ 2 else 0

/-- The over-stability penalty added when `avg_stab > 2` (lines 176-177). -/
def avgStabPenaltyTerm (avgS : ℚ) : ℚ :=
  if 2 < avgS then ((avgS - 2) + 100) ^ 2 else 0

/-- The sweep penalty added when `fin_sweep > 2 * root_chord`
(lines 178-179): note the added term uses `fin_sweep - root_chord`. -/
def sweepPenaltyTerm (root sweep : ℚ) : ℚ :=
  if 2 * root < sweep then ((sweep - root) + 10000) ^ 2 else 0

/-- The tip-chord penalty added when `tip_chord > 2 * root_chord`
(lines 180-181): note the added term uses `tip_chord - root_chord`. -/
def tipPenaltyTerm (root tip : ℚ) : ℚ :=
  if 2 * root < tip then ((tip - root) + 10000) ^ 2 else 0

/-- The rail-exit-velocity penalty added when `rail_exit_vel < 13.0`
(lines 182-183). -/
def railVelPenaltyTerm (v : ℚ) : ℚ :=
  if v < 13 then ((13 - v) + 10000) ^ 2 else 0

/-- The loss composition (lines 171-185): the base term followed by the
five conditional penalty additions, in source order, over float scalars
(`min_stab` and `avg_stab` may be infinite when infinite stability
samples survive the NaN filter). -/
def composeLoss (root tip sweep apogee target : ℚ) (minS avgS : FloatVal)
    (railVel : ℚ) : FloatVal :=
  let loss0 : FloatVal := .fin (baseLossTerm apogee target)
  let loss1 := if minS.lt (.fin 1.6) then
      loss0.add (((FloatVal.fin 1.6).sub minS).add (.fin 10000)).sq else loss0
  let loss2 := if (FloatVal.fin 2).lt avgS then
      loss1.add ((avgS.sub (.fin 2)).add (.fin 100)).sq else loss1
  let loss3 := if 2 * root < sweep then
      loss2.add (.fin (((sweep - root) + 10000) ^ 2)) else loss2
  let loss4 := if 2 * root < tip then
      loss3.add (.fin (((tip - root) + 10000) ^ 2)) else loss3
  if railVel < 13 then loss4.add (.fin (((13 - railVel) + 10000) ^ 2)) else loss4

/-- The metric phase (lines 130-185), reached only after a successful
simulation with apogee at least 100.  It runs outside any `try`, so its
two possible uncaught exceptions (`IndexError` on an empty time series
with no burnout event, `TypeError` from NaN-filtering the Python list
`[]` of the empty-window branch) propagate as `Except.error`. -/
def metricPhase (x : DesignVector) (d : SimTrajectory) (railCfg : ℚ)
    (apogee target : ℚ) : Except Unit FloatVal := do
  let railLen := clampRail railCfg
  let burnout_time ← burnoutTimeOf d.events d.time
  let end_index := searchsortedLeft d.time burnout_time
  let start_index := startIndexOf d.alt railLen
  let boost_stability := boostWindowOf d.stab start_index end_index
  let rail_exit_vel := railExitVelOf d.vel start_index
  let valid_stab ← filterValidStab boost_stability
  if valid_stab.length = 0 then
    Except.ok (.fin allNanStabilitySentinel)
  else
    Except.ok (composeLoss x.root_chord x.tip_chord x.fin_sweep apogee target
      (minF valid_stab) (meanF valid_stab) rail_exit_vel)

/-- The inputs one `calculate_loss` call draws from its collaborators: the
component registry contents, the black-box simulation outcome, and the
configured launch-rod length. -/
structure EvalInput where
  env : ComponentEnv
  sim : SimOutcome
  railCfg : ℚ
deriving DecidableEq, Repr

/-- `Optimizer.calculate_loss` (lines 64-185) with the cross-call
`best_apogee` state passed explicitly.  Returns the loss (`Except.error`
= an uncaught exception propagates to the caller) together with the new
`best_apogee` value.  The mapper `try` turns any design exception into
`crashSentinel`; the simulation `try` turns a simulator failure (or
`max` of an empty altitude series) into `lowApogeeSentinel`, as does an
apogee below 100; the tracker is updated (line 123-124) only after the
apogee check passes. -/
def calculate_loss (best : ℚ) (inp : EvalInput) (x : DesignVector)
    (target : ℚ) : Except Unit FloatVal × ℚ :=
  match applyDesign inp.env x with
  | .error _ => (Except.ok (.fin crashSentinel), best)
  | .ok _ =>
    match inp.sim with
    | .failure => (Except.ok (.fin lowApogeeSentinel), best)
    | .success d =>
      match d.alt.max? with
      | none => (Except.ok (.fin lowApogeeSentinel), best)
      | some apogee =>
        if apogee < 100 then (Except.ok (.fin lowApogeeSentinel), best)
        else
          let best' := if best < apogee then apogee else best
          (metricPhase x d inp.railCfg apogee target, best')

/-! ## The search space and the Stage-2 bounds fence (lines 34-48, 209-257) -/

/-- The declared per-dimension bounds, `[(dim.low, dim.high) for dim in
self.space]` (lines 35-48, 215); the last dimension's upper bound is the
rocket's overall length, a runtime value, so it is a parameter. -/
def spaceBounds (rocketLength : ℚ) : List (ℚ × ℚ) :=
  let halfcluster : ℚ := 35.5 / 100
  let nosefit : ℚ := 13.5 / 100
  let moterfit : ℚ := 35.5 / 100
  [(halfcluster + nosefit, 1), (halfcluster + moterfit, 1.25),
   (0.03, 0.25), (0.03, 0.25), (0.01, 0.5), (0.01, 0.5),
   (0.0, 0.50), (0.0, 0.4), (0.0, rocketLength)]

/-- How far one component sits outside its `(low, high)` bound
(0 when inside). -/
def excessOf (lo hi v : ℚ) : ℚ :=
  if v < lo then lo - v else if hi < v then v - hi else 0

/-- The total out-of-bound distance of a candidate (summed over the
components, as the loop of lines 223-231 accumulates). -/
def totalExcess (bounds : List (ℚ × ℚ)) (x : List ℚ) : ℚ :=
  ((x.zip bounds).map (fun p => excessOf p.2.1 p.2.2 p.1)).sum

/-- The accumulated `penalty` of the fence loop: each out-of-bound
component contributes its distance times `10000000` (lines 227, 230). -/
def fencePenalty (bounds : List (ℚ × ℚ)) (x : List ℚ) : ℚ :=
  ((x.zip bounds).map (fun p => excessOf p.2.1 p.2.2 p.1 * 10000000)).sum

/-- The loop's `is_out_of_bounds` flag: some component is strictly outside
its bound (lines 223-231). -/
def isOutOfBounds (bounds : List (ℚ × ℚ)) (x : List ℚ) : Bool :=
  (x.zip bounds).any (fun p => decide (p.1 < p.2.1) || decide (p.2.2 < p.1))

/-- The in-bound check for a single design vector against `spaceBounds`
(each component within its closed bound). -/
def inBoundsDV (rocketLength : ℚ) (x : DesignVector) : Bool :=
  !(isOutOfBounds (spaceBounds rocketLength)
    [x.top_tube_length, x.bottom_tube_length, x.fin_height, x.root_chord,
     x.tip_chord, x.fin_sweep, x.fin_bottom_offset, x.vary_mass,
     x.vary_position])

/-- The unpacking `top_tube_length, ..., vary_position = x` (lines 70-71):
a list of any length other than 9 raises `ValueError` before the `try`
block, so it propagates. -/
def unpackDesign : List ℚ → Except Unit DesignVector
  | [a, b, c, d, e, f, g, h, i] => Except.ok ⟨a, b, c, d, e, f, g, h, i⟩
  | _ => Except.error ()

/-- `calculate_loss` invoked on a flat candidate list, as the Stage-2
objective does (line 239). -/
def calculate_loss_list (best : ℚ) (inp : EvalInput) (x : List ℚ)
    (target : ℚ) : Except Unit FloatVal × ℚ :=
  match unpackDesign x with
  | .error _ => (Except.error (), best)
  | .ok dv => calculate_loss best inp dv target

/-- The Stage-2 fence `bounded_objective` (lines 218-239), parametrized by
the simulator-backed loss `f` (what `self.calculate_loss(x, TARGET_ALTITUDE)`
returns in the world where it is invoked): an out-of-bounds candidate
returns `1000000000.0 + penalty` without touching `f`; an in-bound one
delegates to `f`. -/
def bounded_objective (bounds : List (ℚ × ℚ))
    (f : List ℚ → Except Unit FloatVal) (x : List ℚ) : Except Unit FloatVal :=
  if isOutOfBounds bounds x then
    Except.ok (.fin (1000000000 + fencePenalty bounds x))
  else f x

/-! ## The best-apogee tracker across a two-stage run (lines 188-207, 210-257) -/

/-- One objective evaluation: the collaborator inputs it sees and the
candidate it applies. -/
structure EvalCall where
  inp : EvalInput
  x : DesignVector
deriving DecidableEq, Repr

/-- How one `calculate_loss` call transforms the `best_apogee` tracker. -/
def evalBestStep (target best : ℚ) (c : EvalCall) : ℚ :=
  (calculate_loss best c.inp c.x target).2

/-- The apogee a call's simulation outcome yields, when it yields one. -/
def apogeeOf (inp : EvalInput) : Option ℚ :=
  match inp.sim with
  | .failure => none
  | .success d => d.alt.max?

/-- The `best_apogee` value after Stage 1: `run_stage1_global` resets the
tracker to `0.0` (line 190) and then drives its sequence of
`calculate_loss` evaluations. -/
def run_stage1_best (target : ℚ) (calls : List EvalCall) : ℚ :=
  calls.foldl (evalBestStep target) 0

/-- The `best_apogee` value after Stage 2: `run_stage2_local` performs no
reset, so its in-bound evaluations (the only ones that reach
`calculate_loss`) continue from the incoming tracker value. -/
def run_stage2_best (target best0 : ℚ) (calls : List EvalCall) : ℚ :=
  calls.foldl (evalBestStep target) best0

/-! ## The save step of `verify_and_save` (lines 386-403) -/

/-- Observable result of the save step. -/
inductive SaveOutcome where
  | saved
  | failed
deriving DecidableEq, Repr

/-- What the save step reports for a given save-attempt result. -/
def saveOutcomeOf : Except Unit Unit → SaveOutcome
  | .ok _ => .saved
  | .error _ => .failed

/-- The save step of `verify_and_save` (lines 389-403): the persistence
attempt runs in a `try` block whose `except Exception` clause prints
`Save Failed` and falls through, so the method returns normally either
way; `Except.error` would model an exception propagating to the caller. -/
def savePhase (saveResult : Except Unit Unit) : Except Unit SaveOutcome :=
  match saveResult with
  | .ok _ => Except.ok .saved
  | .error _ => Except.ok .failed

/-- The axial-offset formula of `verify_and_save` (lines 290-293), the
same unclamped `parent_len - root_chord - fin_bottom_offset` the mapper
writes. -/
def verifyAxialOffset (parent_len root_chord fin_bottom_offset : ℚ) : ℚ :=
  parent_len - root_chord - fin_bottom_offset

/-! ## Concrete instances used by witnesses and counterexamples -/

/-- Which present setters outside the fin set throw nothing (used to state
that a missing fin set is skipped while the remaining components are
still written). -/
def otherSettersOk (env : ComponentEnv) : Bool :=
  (match env.topTube with | some t => !t.setLengthThrows | none => true)
  && (match env.bottomTube with | some t => !t.setLengthThrows | none => true)
  && (match env.varMass with
      | some m => !m.setOverriddenThrows && !m.setOverrideMassThrows
          && !m.setAxialThrows
      | none => true)

/-- A component environment with every named component missing. -/
def envEmpty : ComponentEnv := ⟨none, none, none, none⟩

/-- An environment whose only present component is a benign fin set with a
parent of length `0.5`. -/
def envFins : ComponentEnv :=
  ⟨none, none, some ⟨false, false, false, false, false, some 0.5⟩, none⟩

/-- An environment whose top tube's `setLength` throws. -/
def envThrow : ComponentEnv := ⟨some ⟨true⟩, none, none, none⟩

/-- An environment with both tubes and the mass component present and
benign, and the fin set missing. -/
def envNoFins : ComponentEnv :=
  ⟨some ⟨false⟩, some ⟨false⟩, none, some ⟨false, false, false⟩⟩

/-- An in-bounds design vector (against `spaceBounds 2`). -/
def xIn : DesignVector := ⟨0.5, 0.8, 0.1, 0.2, 0.2, 0.2, 0.1, 0.1, 0.5⟩

/-- An in-bounds design vector whose root chord `0.25` and bottom offset
`0.3` drive the derived axial offset negative on a parent of length
`0.5`. -/
def xNegOff : DesignVector := ⟨0.5, 0.8, 0.1, 0.25, 0.2, 0.2, 0.3, 0.1, 0.5⟩

/-- The state the mapper produces on `envFins` with `xIn`: the fin fields
written, the axial offset `0.5 - 0.2 - 0.1 = 0.2`. -/
def sFinsApplied : AppliedState :=
  { finHeight := some 0.1, finRootChord := some 0.2, finTipChord := some 0.2,
    finSweep := some 0.2, finAxialOffset := some 0.2 }

/-- A trajectory whose powered-ascent window is empty: the motor burns out
(at `t = 1`) before any altitude sample reaches the clamped 2.44 rail
length (first reached at index 3, `t = 3`), while the apogee 150 passes
the minimal-flight check. -/
def c3Traj : SimTrajectory :=
  { time := [0, 1, 2, 3, 4]
    alt := [0, 1/2, 1, 3, 150]
    vel := [0, 1, 2, 5, 80]
    stab := [.fin 2, .fin 2, .fin 2, .fin 2, .fin 2]
    events := [⟨true, 1⟩] }

/-- The evaluator input carrying `c3Traj` with a 1-unit configured rail. -/
def c3Input : EvalInput := ⟨envEmpty, .success c3Traj, 1⟩

/-- A healthy trajectory far above the target: apogee 11524, rail exit at
index 1 with velocity 30, burnout at `t = 2`, in-window stability 1.7. -/
def c4Traj : SimTrajectory :=
  { time := [0, 1, 2]
    alt := [0, 10, 11524]
    vel := [20, 30, 40]
    stab := [.fin 1.7, .fin 1.7, .fin 1.7]
    events := [⟨true, 2⟩] }

/-- The evaluator input carrying `c4Traj`. -/
def c4Input : EvalInput := ⟨envEmpty, .success c4Traj, 1⟩

/-- The simulator-backed Stage-2 objective in the world where the simulator
returns `c4Traj` (target altitude 1524, fresh tracker). -/
def simWorldLoss (v : List ℚ) : Except Unit FloatVal :=
  (calculate_loss_list 0 c4Input v 1524).1

/-- `xIn` as the flat candidate list Stage 2 passes around. -/
def xInList : List ℚ := [0.5, 0.8, 0.1, 0.2, 0.2, 0.2, 0.1, 0.1, 0.5]

/-- A candidate just outside the first dimension's lower bound `0.49`. -/
def xBadList : List ℚ := [0.48, 0.8, 0.1, 0.2, 0.2, 0.2, 0.1, 0.1, 0.5]

/-- A valid-flight trajectory for the tracker witness: apogee 150 with a
normal powered window. -/
def c9Traj : SimTrajectory :=
  { time := [0, 1, 2]
    alt := [0, 10, 150]
    vel := [20, 30, 40]
    stab := [.fin 1.7, .fin 1.7, .fin 1.7]
    events := [⟨true, 2⟩] }

/-- One tracker-updating evaluation call carrying `c9Traj`. -/
def c9call : EvalCall := ⟨⟨envEmpty, .success c9Traj, 1⟩, xIn⟩

/-- An evaluator input whose top tube setter throws. -/
def inpThrow : EvalInput := ⟨envThrow, .failure, 1⟩

/-- An evaluator input whose fin set is missing and whose other components
are present and benign. -/
def inpNoFins : EvalInput := ⟨envNoFins, .failure, 1⟩

/-- The state the mapper produces on `envNoFins` with `xIn`: both tube
lengths and the three mass fields written, no fin fields. -/
def sNoFinsApplied : AppliedState :=
  { topTubeLength := some 0.5, bottomTubeLength := some 0.8,
    massOverridden := some true, overrideMass := some 0.1,
    massAxialPosition := some 0.5 }

/-! ## Helper lemmas -/

theorem FloatVal.add_fin (a b : ℚ) :
    (FloatVal.fin a).add (.fin b) = .fin (a + b) := rfl

theorem FloatVal.sub_fin (a b : ℚ) :
    (FloatVal.fin a).sub (.fin b) = .fin (a - b) := by
  simp [FloatVal.sub, FloatVal.neg, FloatVal.add, sub_eq_add_neg]

theorem FloatVal.sq_fin (a : ℚ) : (FloatVal.fin a).sq = .fin (a ^ 2) := by
  simp [FloatVal.sq, FloatVal.mul, pow_two]

theorem FloatVal.lt_fin (a b : ℚ) :
    (FloatVal.fin a).lt (.fin b) = decide (a < b) := rfl

/-- The float order is consistent: `a ≤ b` forces `¬ (b < a)`. -/
theorem FloatVal.le_lt_false (a b : FloatVal) (h : a.le b = true) :
    b.lt a = false := by
  cases a <;> cases b <;> simp_all [FloatVal.le, FloatVal.lt]

theorem exc_bind_ok {α β : Type} (a : α) (f : α → Except Unit β) :
    (Except.ok a : Except Unit α) >>= f = f a := rfl

theorem exc_bind_error {α β : Type} (f : α → Except Unit β) :
    (Except.error () : Except Unit α) >>= f = Except.error () := rfl

/-- Inversion for a successful `Except` bind. -/
theorem exbind_ok {α β : Type} {a : Except Unit α} {f : α → Except Unit β}
    {b : β} (h : a.bind f = .ok b) : ∃ y, a = .ok y ∧ f y = .ok b := by
  cases a with
  | error e => simp [Except.bind] at h
  | ok y => exact ⟨y, rfl, h⟩

/-- The `Var Mass` writes do not touch the fin axial offset. -/
theorem applyVarMass_offset (m? : Option MassBeh) (x : DesignVector)
    (s s' : AppliedState) (h : applyVarMass m? x s = .ok s') :
    s'.finAxialOffset = s.finAxialOffset := by
  rcases m? with _ | ⟨b1, b2, b3⟩
  · simp_all [applyVarMass]
  · cases b1 <;> cases b2 <;> cases b3 <;> simp_all [applyVarMass] <;>
      subst h <;> rfl

/-- A successful fin-set application with a parent of reported length `L`
writes exactly the unclamped `L - root_chord - fin_bottom_offset`. -/
theorem applyFins_offset (f : FinsBeh) (L : ℚ) (x : DesignVector)
    (s s' : AppliedState) (hL : f.parentLen = some L)
    (h : applyFins (some f) x s = .ok s') :
    s'.finAxialOffset = some (L - x.root_chord - x.fin_bottom_offset) := by
  obtain ⟨b1, b2, b3, b4, b5, pl⟩ := f
  simp only at hL
  subst hL
  cases b1 <;> cases b2 <;> cases b3 <;> cases b4 <;> cases b5 <;>
    simp_all [applyFins] <;> subst h <;> rfl

/-- A list all of whose members are strictly below the rail length has no
sample at or above it. -/
theorem firstAtOrAbove_none (r : ℚ) (l : List ℚ) (h : ∀ a ∈ l, a < r) :
    firstAtOrAbove r l = none := by
  induction l with
  | nil => rfl
  | cons a t ih =>
    have ha : ¬ r ≤ a := not_le.mpr (h a (List.mem_cons_self a t))
    simp [firstAtOrAbove, if_neg ha,
      ih (fun b hb => h b (List.mem_cons_of_mem a hb))]

/-- The per-component out-of-bound distance is non-negative. -/
theorem excessOf_nonneg (lo hi v : ℚ) : 0 ≤ excessOf lo hi v := by
  unfold excessOf
  split_ifs <;> linarith

/-- The fence penalty is the weight 10000000 times the total out-of-bound
distance. -/
theorem fencePenalty_eq (bounds : List (ℚ × ℚ)) (x : List ℚ) :
    fencePenalty bounds x = 10000000 * totalExcess bounds x := by
  unfold fencePenalty totalExcess
  induction x.zip bounds with
  | nil => simp
  | cons p t ih =>
    simp only [List.map_cons, List.sum_cons, ih]
    ring

/-- The fence penalty is non-negative. -/
theorem fencePenalty_nonneg (bounds : List (ℚ × ℚ)) (x : List ℚ) :
    0 ≤ fencePenalty bounds x := by
  unfold fencePenalty
  apply List.sum_nonneg
  intro y hy
  simp only [List.mem_map] at hy
  obtain ⟨p, hp, rfl⟩ := hy
  exact mul_nonneg (excessOf_nonneg p.2.1 p.2.2 p.1) (by norm_num)

/-- Case analysis of one evaluation's effect on the best-apogee tracker:
either the tracker is unchanged, or the run produced an apogee of at
least 100 that strictly exceeds the stored value and becomes the new
value. -/
theorem evalBestStep_cases (target best : ℚ) (c : EvalCall) :
    evalBestStep target best c = best
    ∨ ∃ ap, apogeeOf c.inp = some ap ∧ ¬ ap < 100 ∧ best < ap
        ∧ evalBestStep target best c = ap := by
  simp only [evalBestStep, calculate_loss]
  cases happ : applyDesign c.inp.env c.x with
  | error e => left; rfl
  | ok s =>
    cases hsim : c.inp.sim with
    | failure => left; rfl
    | success d =>
      cases hmax : d.alt.max? with
      | none => left; simp [hmax]
      | some ap =>
        by_cases hap : ap < 100
        · left; simp [hmax, hap]
        · by_cases hbest : best < ap
          · right
            exact ⟨ap, by simp [apogeeOf, hsim, hmax], hap, hbest,
              by simp [hmax, hap, hbest]⟩
          · left; simp [hmax, hap, hbest]

/-! ## Claim theorems -/

/-- Claim C2, counterexample: the mapper writes the unclamped
`parent_length - root_chord - bottom_offset` (line 94-95); at
`(parent_length, root_chord, bottom_offset) = (0.5, 0.25, 0.3)` the written
axial offset is `-1/20`, which is negative and differs from
`max(0, parent_length - root_chord - bottom_offset) = 0`. -/
theorem axial_offset_cex :
    (applyDesign envFins xNegOff).map AppliedState.finAxialOffset
      = Except.ok (some (-(1/20) : ℚ))
    ∧ max 0 ((0.5 : ℚ) - 0.25 - 0.3) = 0
    ∧ (-(1/20) : ℚ) < 0
    ∧ ¬((-(1/20) : ℚ) = max 0 ((0.5 : ℚ) - 0.25 - 0.3)) := by
  refine ⟨?_, ?_, by norm_num, ?_⟩
  · norm_num [applyDesign, envFins, xNegOff, applyTopTube, applyBottomTube,
      applyFins, applyVarMass, exc_bind_ok, Except.map]
  · norm_num
  · norm_num

/-- Claim C2, amended: for every (parent_length, root_chord, bottom_offset)
triple, the lifting-surface axial offset the mapper writes equals the
unclamped `parent_length - root_chord - bottom_offset`; it is not clamped
at zero and can be negative. -/
theorem axial_offset_eq (env : ComponentEnv) (x : DesignVector) (fb : FinsBeh)
    (L : ℚ) (s : AppliedState) (hf : env.fins = some fb)
    (hp : fb.parentLen = some L) (h : applyDesign env x = .ok s) :
    s.finAxialOffset = some (L - x.root_chord - x.fin_bottom_offset) := by
  unfold applyDesign at h
  obtain ⟨s1, h1, h⟩ := exbind_ok h
  obtain ⟨s2, h2, h⟩ := exbind_ok h
  obtain ⟨s3, h3, h⟩ := exbind_ok h
  rw [hf] at h3
  rw [applyVarMass_offset _ _ _ _ h, applyFins_offset fb L x s2 s3 hp h3]

/-- Claim C2, witness: the amended statement at the concrete benign fin-set
environment with parent length 0.5 and the in-bounds vector `xIn`. -/
theorem axial_offset_eq_witness :
    sFinsApplied.finAxialOffset = some ((0.5 : ℚ) - 0.2 - 0.1) := by
  have hs : applyDesign envFins xIn = .ok sFinsApplied := by
    norm_num [applyDesign, envFins, xIn, sFinsApplied, applyTopTube,
      applyBottomTube, applyFins, applyVarMass, exc_bind_ok]
  have h := axial_offset_eq envFins xIn _ 0.5 sFinsApplied rfl rfl hs
  simpa [xIn] using h

/-- Claim C3, code bug: on a flight whose powered window is empty (the
motor burns out at `t = 1`, index 1, while altitude first reaches the
clamped 2.44 rail length only at index 3) the evaluator raises an
uncaught `TypeError` — `boost_stability` is the Python list `[]`
(line 160) and line 163 indexes it with an empty numpy boolean mask —
instead of returning the `100000000.0` sentinel the claim (and lines
165-166) intend. -/
theorem empty_window_type_error :
    (calculate_loss 0 c3Input xIn 1524).1 = Except.error ()
    ∧ searchsortedLeft c3Traj.time 1 = 1
    ∧ startIndexOf c3Traj.alt (clampRail 1) = 3 := by
  refine ⟨?_, ?_, ?_⟩
  · norm_num [calculate_loss, c3Input, c3Traj, xIn, envEmpty, applyDesign,
      applyTopTube, applyBottomTube, applyFins, applyVarMass, metricPhase,
      clampRail, burnoutTimeOf, searchsortedLeft, startIndexOf,
      firstAtOrAbove, boostWindowOf, railExitVelOf, filterValidStab,
      List.max?, List.takeWhile, List.find?, exc_bind_ok, exc_bind_error,
      List.getD_cons_zero, List.getD_cons_succ]
  · norm_num [searchsortedLeft, c3Traj, List.takeWhile]
  · norm_num [startIndexOf, firstAtOrAbove, c3Traj, clampRail]

/-- Claim C10: when no altitude sample reaches the (upward-clamped) rail
length, the start index falls back to 0 (the flight is not treated as
failed), the rail-exit velocity is read from the first velocity sample
(or 0.0 when the velocity series is empty), and the powered window is a
prefix of the stability series starting at launch. -/
theorem no_rail_sample_start_zero (cfg : ℚ) (alt vel : List ℚ)
    (stab : List FloatVal) (e : ℕ) (h : ∀ a ∈ alt, a < clampRail cfg) :
    startIndexOf alt (clampRail cfg) = 0
    ∧ railExitVelOf vel (startIndexOf alt (clampRail cfg)) = vel.headD 0
    ∧ (0 < e → boostWindowOf stab (startIndexOf alt (clampRail cfg)) e
        = .arr (stab.take e)) := by
  have h0 : startIndexOf alt (clampRail cfg) = 0 := by
    simp [startIndexOf, firstAtOrAbove_none (clampRail cfg) alt h]
  refine ⟨h0, ?_, ?_⟩
  · rw [h0]
    cases vel <;> simp [railExitVelOf]
  · intro he
    rw [h0]
    simp [boostWindowOf, he]

/-- Claim C10, witness: the clamped rail length for a 1-unit configured
rail is 2.44; on the trajectory with altitudes `[0, 1, 2]` (all below it)
the start index is 0, the rail-exit velocity is the first velocity
sample, and the window is a prefix of the stability series. -/
theorem no_rail_sample_start_zero_witness :
    startIndexOf [0, 1, 2] (clampRail 1) = 0
    ∧ railExitVelOf [(7 : ℚ), 8] (startIndexOf [0, 1, 2] (clampRail 1))
        = List.headD [(7 : ℚ), 8] 0
    ∧ boostWindowOf [FloatVal.fin 2] (startIndexOf [0, 1, 2] (clampRail 1)) 1
        = .arr (List.take 1 [FloatVal.fin 2]) := by
  have h := no_rail_sample_start_zero 1 [0, 1, 2] [7, 8] [FloatVal.fin 2] 1
    (by norm_num [clampRail])
  exact ⟨h.1, h.2.1, h.2.2 (by norm_num)⟩

/-- Claim C4, counterexample: the fence value is not strictly greater than
the maximum possible in-bound loss.  The candidate `xBadList` (first
component 0.48, below its 0.49 bound) receives the fence value
`1000000000 + 100000`, while the in-bound candidate `xInList` evaluates
under the same simulator behaviour (`c4Traj`, apogee 11524 against target
1524, all constraints slack) to the strictly larger in-bound loss
`25000000000`. -/
theorem bounds_fence_cex :
    isOutOfBounds (spaceBounds 2) xBadList = true
    ∧ bounded_objective (spaceBounds 2) simWorldLoss xBadList
        = Except.ok (.fin 1000100000)
    ∧ isOutOfBounds (spaceBounds 2) xInList = false
    ∧ simWorldLoss xInList = Except.ok (.fin 25000000000)
    ∧ (1000100000 : ℚ) < 25000000000 := by
  refine ⟨?_, ?_, ?_, ?_, by norm_num⟩
  · norm_num [isOutOfBounds, spaceBounds, xBadList, List.zip, List.zipWith]
  · norm_num [bounded_objective, isOutOfBounds, spaceBounds, xBadList,
      fencePenalty, excessOf, List.zip, List.zipWith]
  · norm_num [isOutOfBounds, spaceBounds, xInList, List.zip, List.zipWith]
  · norm_num [simWorldLoss, calculate_loss_list, unpackDesign, calculate_loss,
      c4Input, c4Traj, xInList, envEmpty, applyDesign, applyTopTube,
      applyBottomTube, applyFins, applyVarMass, metricPhase, clampRail,
      burnoutTimeOf, searchsortedLeft, startIndexOf, firstAtOrAbove,
      boostWindowOf, railExitVelOf, filterValidStab, minF, meanF, sumF,
      FloatVal.minPair, FloatVal.divNat, FloatVal.add, FloatVal.isnan,
      composeLoss, baseLossTerm, FloatVal.lt, FloatVal.sub, FloatVal.neg,
      FloatVal.sq, FloatVal.mul, List.max?, List.takeWhile, List.find?,
      List.filter, exc_bind_ok, exc_bind_error, List.getD, List.getD_cons_zero,
      List.getD_cons_succ, allNanStabilitySentinel]

/-- Claim C4, amended: for any candidate with an out-of-bound component the
Stage-2 objective returns `1000000000.0` plus a penalty proportional
(weight 10000000) to the total distance outside the bounds, a value
strictly greater than every sentinel loss, and the simulator-backed loss
function is never consulted (the result is the same for any two loss
functions).  The fence value is however not above every achievable
in-bound loss (see the counterexample). -/
theorem bounds_fence (bounds : List (ℚ × ℚ))
    (f g : List ℚ → Except Unit FloatVal) (x : List ℚ)
    (h : isOutOfBounds bounds x = true) :
    bounded_objective bounds f x
        = Except.ok (.fin (1000000000 + fencePenalty bounds x))
    ∧ bounded_objective bounds f x = bounded_objective bounds g x
    ∧ fencePenalty bounds x = 10000000 * totalExcess bounds x
    ∧ crashSentinel < 1000000000 + fencePenalty bounds x
    ∧ lowApogeeSentinel < 1000000000 + fencePenalty bounds x
    ∧ allNanStabilitySentinel < 1000000000 + fencePenalty bounds x := by
  have hge := fencePenalty_nonneg bounds x
  refine ⟨by simp [bounded_objective, h], by simp [bounded_objective, h],
    fencePenalty_eq bounds x, ?_, ?_, ?_⟩
  · unfold crashSentinel
    norm_num
    linarith
  · unfold lowApogeeSentinel
    norm_num
    linarith
  · unfold allNanStabilitySentinel
    norm_num
    linarith

/-- Claim C4, witness: the amended statement at the out-of-bounds candidate
`xBadList` against the declared bounds, with the simulator-backed loss on
one side and a constant stub on the other. -/
theorem bounds_fence_witness :
    bounded_objective (spaceBounds 2) simWorldLoss xBadList
        = Except.ok (.fin (1000000000 + fencePenalty (spaceBounds 2) xBadList))
    ∧ bounded_objective (spaceBounds 2) simWorldLoss xBadList
        = bounded_objective (spaceBounds 2) (fun _ => Except.ok (.fin 0)) xBadList
    ∧ fencePenalty (spaceBounds 2) xBadList
        = 10000000 * totalExcess (spaceBounds 2) xBadList
    ∧ crashSentinel < 1000000000 + fencePenalty (spaceBounds 2) xBadList
    ∧ lowApogeeSentinel < 1000000000 + fencePenalty (spaceBounds 2) xBadList
    ∧ allNanStabilitySentinel
        < 1000000000 + fencePenalty (spaceBounds 2) xBadList :=
  bounds_fence (spaceBounds 2) simWorldLoss (fun _ => Except.ok (.fin 0))
    xBadList
    (by norm_num [isOutOfBounds, spaceBounds, xBadList, List.zip, List.zipWith])

/-- Claim C6: for every in-bounds design vector the mapper phase never
propagates an exception — any exception inside the apply block yields the
fixed crash sentinel `99999.0` and leaves the tracker untouched — and a
missing fin set is skipped non-fatally: when the fin set is absent and
the present remaining setters do not throw, the apply block succeeds and
still writes the tube lengths and the mass fields. -/
theorem mapper_never_raises (L best target : ℚ) (inp : EvalInput)
    (x : DesignVector) (hx : inBoundsDV L x = true) :
    (applyDesign inp.env x = .error () →
      calculate_loss best inp x target = (Except.ok (.fin crashSentinel), best))
    ∧ (inp.env.fins = none → otherSettersOk inp.env = true →
        ∃ s, applyDesign inp.env x = .ok s
          ∧ (inp.env.topTube.isSome = true →
              s.topTubeLength = some x.top_tube_length)
          ∧ (inp.env.bottomTube.isSome = true →
              s.bottomTubeLength = some x.bottom_tube_length)
          ∧ (inp.env.varMass.isSome = true →
              s.massOverridden = some true ∧ s.overrideMass = some x.vary_mass
                ∧ s.massAxialPosition = some x.vary_position)) := by
  constructor
  · intro h
    simp [calculate_loss, h]
  · intro hf hok
    rcases henv : inp.env with ⟨tt, bt, fins, vm⟩
    rw [henv] at hf hok
    simp only at hf
    subst hf
    rcases tt with _ | ⟨b1⟩ <;> rcases bt with _ | ⟨b2⟩ <;>
      rcases vm with _ | ⟨b3, b4, b5⟩ <;>
      simp_all [otherSettersOk, applyDesign, applyTopTube, applyBottomTube,
        applyFins, applyVarMass, exc_bind_ok]

/-- Claim C6, witness: with a throwing top-tube setter the evaluator
returns the crash sentinel with the tracker unchanged, and with the fin
set missing the remaining components are still written. -/
theorem mapper_never_raises_witness :
    calculate_loss 0 inpThrow xIn 1524 = (Except.ok (.fin crashSentinel), 0)
    ∧ sNoFinsApplied.topTubeLength = some xIn.top_tube_length := by
  constructor
  · exact (mapper_never_raises 2 0 1524 inpThrow xIn
      (by norm_num [inBoundsDV, isOutOfBounds, spaceBounds, xIn, List.zip,
        List.zipWith])).1
      (by norm_num [applyDesign, inpThrow, envThrow, applyTopTube,
        exc_bind_error])
  · obtain ⟨s, hs, h1, _, _⟩ := (mapper_never_raises 2 0 1524 inpNoFins xIn
      (by norm_num [inBoundsDV, isOutOfBounds, spaceBounds, xIn, List.zip,
        List.zipWith])).2 rfl
      (by norm_num [otherSettersOk, inpNoFins, envNoFins])
    have hs2 : applyDesign envNoFins xIn = Except.ok s := hs
    have hconc : applyDesign envNoFins xIn = Except.ok sNoFinsApplied := by
      norm_num [applyDesign, envNoFins, xIn, sNoFinsApplied, applyTopTube,
        applyBottomTube, applyFins, applyVarMass, exc_bind_ok]
    have heq : sNoFinsApplied = s := by
      have := hconc.symm.trans hs2
      exact Except.ok.inj this
    rw [heq]
    exact h1 rfl

/-- Claim C9: the best-apogee tracker is reset to zero exactly once, at
the start of Stage 1 (Stage 2 continues from Stage 1's value without a
reset, so the whole run is one fold from 0); each evaluation leaves the
tracker monotonically non-decreasing; and it changes only when a valid
flight's apogee (at least 100, produced by a successful simulation)
strictly exceeds the stored value, in which case it becomes that apogee. -/
theorem best_apogee_tracker (target : ℚ) (calls1 calls2 : List EvalCall) :
    run_stage2_best target (run_stage1_best target calls1) calls2
        = (calls1 ++ calls2).foldl (evalBestStep target) 0
    ∧ (∀ best c, best ≤ evalBestStep target best c)
    ∧ (∀ best c, evalBestStep target best c ≠ best →
        evalBestStep target best c = (apogeeOf c.inp).getD best
        ∧ best < (apogeeOf c.inp).getD best
        ∧ (100 : ℚ) ≤ (apogeeOf c.inp).getD best) := by
  refine ⟨?_, ?_, ?_⟩
  · rw [run_stage1_best, run_stage2_best, List.foldl_append]
  · intro best c
    rcases evalBestStep_cases target best c with h | ⟨ap, _, _, hb, he⟩
    · rw [h]
    · rw [he]
      exact le_of_lt hb
  · intro best c hne
    rcases evalBestStep_cases target best c with h | ⟨ap, ha, h100, hb, he⟩
    · exact absurd h hne
    · rw [he, ha]
      exact ⟨rfl, hb, not_lt.mp h100⟩

/-- Claim C9, witness: the tracker characterization at the concrete call
`c9call` (apogee 150 from a fresh tracker). -/
theorem best_apogee_tracker_witness :
    evalBestStep 1524 0 c9call = (apogeeOf c9call.inp).getD 0
    ∧ (0 : ℚ) < (apogeeOf c9call.inp).getD 0
    ∧ (100 : ℚ) ≤ (apogeeOf c9call.inp).getD 0 := by
  have h150 : evalBestStep 1524 0 c9call = 150 := by
    norm_num [evalBestStep, calculate_loss, c9call, c9Traj, xIn, envEmpty,
      applyDesign, applyTopTube, applyBottomTube, applyFins, applyVarMass,
      List.max?, exc_bind_ok]
  exact (best_apogee_tracker 1524 [c9call] []).2.2 0 c9call
    (by rw [h150]; norm_num)


/-- Claim C1, counterexample: the sentinel ordering
`crash_sentinel < low_apogee_sentinel < all_nan_stability_sentinel` fails,
because the low-apogee sentinel and the all-NaN-stability sentinel are the
same constant `100000000.0` (lines 121, 128 and 166). -/
theorem sentinel_strict_ordering_cex :
    ¬(crashSentinel < lowApogeeSentinel
      ∧ lowApogeeSentinel < allNanStabilitySentinel) := by
  norm_num [crashSentinel, lowApogeeSentinel, allNanStabilitySentinel]

/-- Claim C1, amended: the crash sentinel (99999.0) is strictly below the
low-apogee sentinel (100000000.0), and the low-apogee sentinel equals the
all-NaN-stability sentinel. -/
theorem sentinel_ordering :
    crashSentinel < lowApogeeSentinel
    ∧ lowApogeeSentinel = allNanStabilitySentinel := by
  norm_num [crashSentinel, lowApogeeSentinel, allNanStabilitySentinel]

/-- Claim C5, counterexample: the geometric tip-chord penalty is not
proportional to (and not even a function of) `tip_chord - 2 * root_chord`:
the two triggered designs `(root, tip) = (0.1, 0.3)` and `(0.2, 0.5)` have
the same violation `tip - 2 * root = 0.1` yet different penalties, because
the added term is `((tip_chord - root_chord) + 10000) ** 2` (line 181). -/
theorem tip_chord_penalty_cex :
    2 * (0.1 : ℚ) < 0.3 ∧ 2 * (0.2 : ℚ) < 0.5
    ∧ (0.3 : ℚ) - 2 * 0.1 = (0.5 : ℚ) - 2 * 0.2
    ∧ tipPenaltyTerm 0.1 0.3 ≠ tipPenaltyTerm 0.2 0.5 := by
  refine ⟨by norm_num, by norm_num, by norm_num, ?_⟩
  norm_num [tipPenaltyTerm]

/-- Claim C5, amended: for every evaluated design with positive root chord
whose tip chord exceeds twice the root chord, the loss composer adds the
strictly positive penalty `((tip_chord - root_chord) + 10000) ** 2`
(which depends on `tip - root`, not on `tip - 2 * root`); in particular a
vector with tip chord equal to 3 times the root chord gets that positive
penalty.  The first conjunct exhibits the additive decomposition of the
composed loss for finite stability statistics. -/
theorem tip_chord_penalty (root tip sweep ap tg v m a : ℚ)
    (hr : 0 < root) (h : 2 * root < tip) :
    composeLoss root tip sweep ap tg (.fin m) (.fin a) v
      = .fin (baseLossTerm ap tg + minStabPenaltyTerm m + avgStabPenaltyTerm a
          + sweepPenaltyTerm root sweep + tipPenaltyTerm root tip
          + railVelPenaltyTerm v)
    ∧ tipPenaltyTerm root tip = ((tip - root) + 10000) ^ 2
    ∧ 0 < tipPenaltyTerm root tip := by
  have htip : tipPenaltyTerm root tip = ((tip - root) + 10000) ^ 2 := by
    simp [tipPenaltyTerm, h]
  refine ⟨?_, htip, ?_⟩
  · by_cases hm : m < (1.6 : ℚ) <;> by_cases ha : (2 : ℚ) < a <;>
      by_cases hs : 2 * root < sweep <;> by_cases hv : v < (13 : ℚ) <;>
      simp [composeLoss, FloatVal.lt_fin, FloatVal.sub_fin, FloatVal.add_fin,
        FloatVal.sq_fin, minStabPenaltyTerm, avgStabPenaltyTerm,
        sweepPenaltyTerm, tipPenaltyTerm, railVelPenaltyTerm, baseLossTerm,
        hm, ha, hs, hv, h] <;> ring
  · rw [htip]
    have : 0 < (tip - root) + 10000 := by linarith
    exact pow_pos this 2

/-- Claim C5, witness: the amended statement at the concrete design
`root = 0.1`, `tip = 0.3 = 3 * root` with slack remaining metrics. -/
theorem tip_chord_penalty_witness :
    composeLoss 0.1 0.3 0.1 1600 1524 (.fin 1.7) (.fin 1.7) 30
      = .fin (baseLossTerm 1600 1524 + minStabPenaltyTerm 1.7
          + avgStabPenaltyTerm 1.7 + sweepPenaltyTerm 0.1 0.1
          + tipPenaltyTerm 0.1 0.3 + railVelPenaltyTerm 30)
    ∧ tipPenaltyTerm 0.1 0.3 = (((0.3 : ℚ) - 0.1) + 10000) ^ 2
    ∧ (0 : ℚ) < tipPenaltyTerm 0.1 0.3 :=
  tip_chord_penalty 0.1 0.3 0.1 1600 1524 30 1.7 1.7 (by norm_num) (by norm_num)

/-- Claim C7: when all five constraints are slack (minimum in-window
stability at least 1.6, average at most 2, sweep at most twice the root
chord, tip chord at most twice the root chord, rail-exit velocity at
least 13), the composed loss is exactly the base term
`((abs(apogee - target) / 20) ** 2) * 100000`, with no penalty
contribution. -/
theorem slack_constraints_loss_is_base (root tip sweep apogee target railVel : ℚ)
    (minS avgS : FloatVal)
    (h1 : (FloatVal.fin 1.6).le minS = true)
    (h2 : avgS.le (.fin 2) = true)
    (h3 : sweep ≤ 2 * root) (h4 : tip ≤ 2 * root) (h5 : 13 ≤ railVel) :
    composeLoss root tip sweep apogee target minS avgS railVel
      = .fin ((|apogee - target| / 20) ^ 2 * 100000) := by
  have hm := FloatVal.le_lt_false _ _ h1
  have ha := FloatVal.le_lt_false _ _ h2
  simp [composeLoss, hm, ha, not_lt.mpr h3, not_lt.mpr h4, not_lt.mpr h5,
    baseLossTerm]

/-- Claim C7, witness: the slack case at concrete metrics
(apogee 1600, target 1524, stability 1.7, rail-exit velocity 30). -/
theorem slack_constraints_loss_is_base_witness :
    composeLoss 0.2 0.2 0.2 1600 1524 (.fin 1.7) (.fin 1.7) 30
      = .fin ((|(1600 : ℚ) - 1524| / 20) ^ 2 * 100000) :=
  slack_constraints_loss_is_base 0.2 0.2 0.2 1600 1524 30 (.fin 1.7) (.fin 1.7)
    (by norm_num [FloatVal.le]) (by norm_num [FloatVal.le]) (by norm_num)
    (by norm_num) (by norm_num)

/-- Claim C8, counterexample: a failing final save is caught inside
`verify_and_save` (the `except` clause of lines 402-403 logs it), so the
failure does not propagate to the caller. -/
theorem save_failure_cex :
    savePhase (Except.error ()) = Except.ok SaveOutcome.failed
    ∧ savePhase (Except.error ()) ≠ Except.error () :=
  ⟨rfl, fun h => Except.noConfusion h⟩

/-- Claim C8, amended: the save step always returns normally, reporting
whether the persistence attempt succeeded; a save failure is logged and
swallowed, the verification result is not discarded, and no exception
reaches the caller. -/
theorem save_failure_caught (r : Except Unit Unit) :
    savePhase r = Except.ok (saveOutcomeOf r) := by
  cases r <;> rfl

/-- Claim C8, witness: the amended statement at a concrete failing save. -/
theorem save_failure_caught_witness :
    savePhase (Except.error ()) = Except.ok (saveOutcomeOf (Except.error ())) :=
  save_failure_caught (Except.error ())

end VulcanCAD
